import Mathlib

/-!
# Order pricing and settlement engine — verification of the specification

Shallow embedding of the pricing, promo-code, cart-expansion and wallet
settlement logic of the Dritchwear storefront
(`src/components/ProductModal.tsx`, `src/app/(customer)/checkout.tsx`).

Money amounts are modelled as rationals; JavaScript `Math.round` is
round-half-up (toward +∞), modelled by `jsRound`.  JavaScript string
operations `toLowerCase`, `trim` and `includes` are modelled over `List Char`.
-/

namespace Dritchwear

/-- JavaScript `Math.round`: round half toward +∞. -/
def jsRound (x : ℚ) : ℤ := ⌊x + 1/2⌋

/-- Round a rational to 2 decimal places the way the source does:
`Math.round(x * 100) / 100`. -/
def roundTo2 (x : ℚ) : ℚ := (jsRound (x * 100) : ℚ) / 100

/-! ## JavaScript string helpers -/

/-- JS `String.prototype.includes` on character lists: `needle` occurs as a
contiguous substring of the haystack. -/
def listContains (needle : List Char) : List Char → Bool
  | [] => needle.isEmpty
  | c :: rest => needle.isPrefixOf (c :: rest) || listContains needle rest

/-- JS `toLowerCase` (ASCII range, which is all the keyword lists use). -/
def toLowerList (s : String) : List Char := s.toList.map Char.toLower

/-- Drop leading whitespace. -/
def trimLeft : List Char → List Char
  | [] => []
  | c :: rest => if c.isWhitespace then trimLeft rest else c :: rest

/-- JS `String.prototype.trim`: drop whitespace at both ends. -/
def trimList (l : List Char) : List Char := ((trimLeft l.reverse).reverse) |> trimLeft

/-- Normalization `location.toLowerCase().trim()` from `calculateDeliveryFee`. -/
def normalizedLocation (location : String) : List Char := trimList (toLowerList location)

/-- Membership check `normalizedLocation.includes(kw)` for a string keyword. -/
def includesKw (normalized : List Char) (kw : String) : Bool := listContains kw.toList normalized

/-! ## Fee tables and fee calculation (`src/components/ProductModal.tsx` 474-579) -/

/-- The constant `SERVICE_FEE_PERCENTAGE = 0.02`. -/
def SERVICE_FEE_PERCENTAGE : ℚ := 2/100

/-- One row of `DELIVERY_FEES_BY_CURRENCY`: `{ local, national, international }`
(`local` is a Lean keyword, hence `local_`). -/
structure DeliveryFees where
  local_ : ℚ
  national : ℚ
  international : ℚ
deriving DecidableEq, Repr

/-- The `DELIVERY_FEES_BY_CURRENCY` record, as a partial lookup. -/
def DELIVERY_FEES_BY_CURRENCY (currency : String) : Option DeliveryFees :=
  if currency = "NGN" then some ⟨3500, 5000, 15000⟩
  else if currency = "USD" then some ⟨5, 8, 25⟩
  else if currency = "EUR" then some ⟨4, 7, 20⟩
  else if currency = "GBP" then some ⟨4, 6, 18⟩
  else if currency = "CAD" then some ⟨6, 9, 28⟩
  else if currency = "AUD" then some ⟨6, 9, 30⟩
  else if currency = "JPY" then some ⟨500, 800, 2500⟩
  else if currency = "CHF" then some ⟨4, 7, 20⟩
  else if currency = "CNY" then some ⟨30, 50, 150⟩
  else if currency = "INR" then some ⟨300, 500, 1500⟩
  else if currency = "ZAR" then some ⟨80, 120, 400⟩
  else none

/-- The lookup `DELIVERY_FEES_BY_CURRENCY[currency] || DELIVERY_FEES_BY_CURRENCY.NGN`. -/
def feesFor (currency : String) : DeliveryFees :=
  (DELIVERY_FEES_BY_CURRENCY currency).getD ⟨3500, 5000, 15000⟩

/-- The `nigerianStates` list of `calculateDeliveryFee`. -/
def nigerianStates : List String :=
  ["abia", "adamawa", "akwa ibom", "anambra", "bauchi", "bayelsa", "benue", "borno",
   "cross river", "delta", "ebonyi", "edo", "ekiti", "enugu", "gombe", "imo",
   "jigawa", "kaduna", "kano", "katsina", "kebbi", "kogi", "kwara", "nasarawa",
   "niger", "ogun", "ondo", "osun", "oyo", "plateau", "rivers", "sokoto",
   "taraba", "yobe", "zamfara", "abuja", "fct"]

/-- The `nigerianCities` list of `calculateDeliveryFee`. -/
def nigerianCities : List String :=
  ["abuja", "kano", "ibadan", "kaduna", "port harcourt", "benin", "maiduguri",
   "zaria", "aba", "jos", "ilorin", "oyo", "enugu", "abeokuta", "abuja",
   "sokoto", "onitsha", "warri", "okene", "calabar", "uyo", "katsina",
   "ado-ekiti", "awka", "bauchi", "akure", "makurdi", "lafia", "gombe",
   "yenagoa", "jalingo", "owerri", "abakaliki", "dutse", "damaturu",
   "gusau", "yola", "minna", "birnin kebbi", "lokoja", "osogbo"]

/-- Source function `calculateDeliveryFee(location, currency)` (ProductModal.tsx 499-547). -/
def calculateDeliveryFee (location : String) (currency : String := "NGN") : ℚ :=
  let fees := feesFor currency
  if location = "" then fees.local_
  else
    let normalized := normalizedLocation location
    if currency = "NGN" && includesKw normalized "lagos" then fees.local_
    else if currency = "NGN" then
      if includesKw normalized "nigeria" ||
         nigerianStates.any (fun state => includesKw normalized state) ||
         nigerianCities.any (fun city => includesKw normalized city) then
        fees.national
      else fees.international
    else if includesKw normalized "international" ||
            includesKw normalized "worldwide" ||
            includesKw normalized "global" then
      fees.international
    else fees.national

/-- Source function `calculateServiceFee(subtotal)` (ProductModal.tsx 549-551). -/
def calculateServiceFee (subtotal : ℚ) : ℚ :=
  (jsRound (subtotal * SERVICE_FEE_PERCENTAGE * 100) : ℚ) / 100

/-- The record returned by `calculateOrderTotal`. -/
structure OrderTotals where
  subtotal : ℚ
  serviceFee : ℚ
  deliveryFee : ℚ
  discountAmount : ℚ
  total : ℚ
  currency : String
deriving Repr

/-- Source function `calculateOrderTotal(subtotal, location, currency, discountAmount)`
(ProductModal.tsx 553-579). -/
def calculateOrderTotal (subtotal : ℚ) (location : String)
    (currency : String := "NGN") (discountAmount : ℚ := 0) : OrderTotals :=
  let serviceFee := calculateServiceFee subtotal
  let deliveryFee := calculateDeliveryFee location currency
  let total := subtotal + serviceFee + deliveryFee
  { subtotal := subtotal
    serviceFee := serviceFee
    deliveryFee := deliveryFee
    discountAmount := discountAmount
    total := roundTo2 total
    currency := currency }

/-! ## Promo codes (ProductModal.tsx 581-629)

`validatePromoCode` reads the module-level `PROMO_CODES` record and
`new Date()`; both are modelled as explicit inputs (a lookup table and a
rational timestamp), with `PROMO_CODES` as the concrete table of the source. -/

/-- The `PromoCode` interface.  `Date` values are rational timestamps. -/
structure PromoCode where
  code : String
  description : String
  discount : ℚ
  isActive : Bool
  maxUses : Option ℕ := none
  currentUses : Option ℕ := none
  startDate : Option ℚ := none
  endDate : Option ℚ := none
deriving Repr

/-- The hardcoded `PROMO_CODES` record. -/
def PROMO_CODES (code : String) : Option PromoCode :=
  if code = "WELCOME10" then
    some { code := "WELCOME10", description := "10% off your order",
           discount := 10/100, isActive := true }
  else if code = "SAVE20" then
    some { code := "SAVE20", description := "20% off your order",
           discount := 20/100, isActive := true }
  else if code = "FIRST15" then
    some { code := "FIRST15", description := "15% off for first-time customers",
           discount := 15/100, isActive := true }
  else if code = "STUDENT" then
    some { code := "STUDENT", description := "12% student discount",
           discount := 12/100, isActive := true }
  else if code = "HOLIDAY25" then
    some { code := "HOLIDAY25", description := "25% holiday special",
           discount := 25/100, isActive := true }
  else none

/-- Source function `validatePromoCode(code)` (ProductModal.tsx 602-625), over an explicit
lookup table (the module-level `PROMO_CODES` in the source) and an explicit
current time `now` (the source's `new Date()`). -/
def validatePromoCodeIn (table : String → Option PromoCode) (now : ℚ)
    (code : String) : Option PromoCode :=
  match table code with
  | none => none
  | some promoCode =>
    if !promoCode.isActive then none
    else if (match promoCode.startDate with
             | some s => decide (now < s)
             | none => false) then none
    else if (match promoCode.endDate with
             | some e => decide (e < now)
             | none => false) then none
    else if (match promoCode.maxUses, promoCode.currentUses with
             | some m, some c => decide (m ≤ c)
             | _, _ => false) then none
    else some promoCode

/-- Source function `validatePromoCode` applied to the source's actual table. -/
def validatePromoCode (now : ℚ) (code : String) : Option PromoCode :=
  validatePromoCodeIn PROMO_CODES now code

/-- Source function `calculateDiscount(subtotal, promoCode)` (ProductModal.tsx 627-629). -/
def calculateDiscount (subtotal : ℚ) (promoCode : PromoCode) : ℚ :=
  subtotal * promoCode.discount

/-! ## Cart expansion (`handleAddToCart`, ProductModal.tsx 67-114) -/

/-- The `Product` interface. -/
structure Product where
  id : String
  name : String
  description : String
  price : ℚ
  image_url : String
  category : String
  sizes : List String
  colors : List String
  stock : ℕ

/-- A cart line item as built by `handleAddToCart`. -/
structure CartLineItem where
  productId : String
  productName : String
  productImage : String
  price : ℚ
  size : String
  color : String
  quantity : ℕ

/-- The pure core of `handleAddToCart`: reject an empty size or color
selection, otherwise build one line item per (size, color) pair, each with
the full requested quantity. -/
def expandSelection (product : Product) (selectedSizes selectedColors : List String)
    (quantity : ℕ) : Except String (List CartLineItem) :=
  if selectedSizes.length = 0 || selectedColors.length = 0 then
    .error "Please select at least one size and one color"
  else
    .ok (selectedSizes.flatMap fun size => selectedColors.map fun color =>
      { productId := product.id
        productName := product.name
        productImage := product.image_url
        price := product.price
        size := size
        color := color
        quantity := quantity })

/-! ## Wallet settlement (`checkout.tsx` 83-246)

The remote calls (stock validation RPC, order insert, wallet update, ledger
insert, cart clear) are modelled by an oracle `ok : SettlementStep → Bool`
saying which calls succeed, and the backend by an explicit `StoreState`.
`processWalletPayment` issues the calls in the source's order, stopping at
the first failure; committed mutations are never undone. -/

/-- The five sequential steps of `processWalletPayment`. -/
inductive SettlementStep where
  | stockValidation
  | orderCreate
  | walletDebit
  | ledgerInsert
  | cartClear
deriving DecidableEq, Repr

/-- The order in which `processWalletPayment` issues its steps. -/
def walletSteps : List SettlementStep :=
  [.stockValidation, .orderCreate, .walletDebit, .ledgerInsert, .cartClear]

/-- Backend state touched by wallet settlement: order records, the wallet
balance, ledger records, and whether the cart has been cleared. -/
structure StoreState where
  orders : ℕ
  walletBalance : ℚ
  ledger : ℕ
  cartCleared : Bool
deriving Repr

/-- Result of a run of `processWalletPayment`: the final backend state, the
steps issued (in order), and whether the whole sequence succeeded. -/
structure WalletRun where
  store : StoreState
  issued : List SettlementStep
  success : Bool
deriving Repr

/-- Source function `processWalletPayment(orderTotals, discountAmount)` (checkout.tsx
161-246): stock validation, order insert with `payment_status: 'paid'`,
wallet debit by the total, ledger transaction insert, cart clear — each step
aborting the rest on failure, never rolling back committed steps. -/
def processWalletPayment (ok : SettlementStep → Bool) (total : ℚ)
    (s : StoreState) : WalletRun :=
  if !ok .stockValidation then
    ⟨s, [.stockValidation], false⟩
  else if !ok .orderCreate then
    ⟨s, [.stockValidation, .orderCreate], false⟩
  else
    let s1 : StoreState := { s with orders := s.orders + 1 }
    if !ok .walletDebit then
      ⟨s1, [.stockValidation, .orderCreate, .walletDebit], false⟩
    else
      let s2 : StoreState := { s1 with walletBalance := s1.walletBalance - total }
      if !ok .ledgerInsert then
        ⟨s2, [.stockValidation, .orderCreate, .walletDebit, .ledgerInsert], false⟩
      else
        let s3 : StoreState := { s2 with ledger := s2.ledger + 1 }
        if !ok .cartClear then
          ⟨s3, walletSteps, false⟩
        else
          ⟨{ s3 with cartCleared := true }, walletSteps, true⟩

/-- Modelled from the spec: `convertFromNGN` lives in `src/lib/currency.ts`,
which is not part of the reviewed sources; per §4.1 it multiplies by a fixed
rate for the target currency and is the identity for the base currency NGN.
The rate table is an explicit parameter. -/
def convertFromNGN (rates : String → ℚ) (amount : ℚ) (currency : String) : ℚ :=
  if currency = "NGN" then amount else amount * rates currency

/-- Outcome of the wallet branch of `handleOrder`. -/
inductive WalletAttempt where
  /-- The insufficient-balance alert, carrying the needed amount and the
  available balance, both converted to the user's display currency. -/
  | insufficient (needed : ℚ) (balance : ℚ)
  /-- Settlement was attempted via `processWalletPayment`. -/
  | processed (run : WalletRun)
deriving Repr

/-- The wallet branch of `handleOrder` (checkout.tsx 104-119): compare the
wallet balance with the computed total in base currency; on shortfall alert
with both amounts converted to the display currency and stop before any
mutation, otherwise hand over to `processWalletPayment`. -/
def handleOrderWallet (rates : String → ℚ) (userCurrency : String)
    (ok : SettlementStep → Bool) (total : ℚ)
    (s : StoreState) : StoreState × WalletAttempt :=
  if s.walletBalance < total then
    (s, .insufficient (convertFromNGN rates total userCurrency)
          (convertFromNGN rates s.walletBalance userCurrency))
  else
    let run := processWalletPayment ok total s
    (run.store, .processed run)

/-! ## External-payment cancel handlers (checkout.tsx 253-268) -/

/-- The checkout screen state the cancel handlers touch, plus the backend
state, which they must leave alone. -/
structure CheckoutUIState where
  showPaystack : Bool
  showPayPal : Bool
  loading : Bool
  store : StoreState
deriving Repr

/-- Source function `handlePaystackCancel` (checkout.tsx 253-257): hide the Paystack modal,
release the loading state, show the cancellation alert. -/
def handlePaystackCancel (s : CheckoutUIState) : CheckoutUIState :=
  { s with showPaystack := false, loading := false }

/-- Source function `handlePayPalCancel` (checkout.tsx 264-268): hide the PayPal modal,
release the loading state, show the cancellation alert. -/
def handlePayPalCancel (s : CheckoutUIState) : CheckoutUIState :=
  { s with showPayPal := false, loading := false }

/-! ## Spec-side definitions, for refinement claims -/

/-- The spec's wording of rounding to 2 decimal places with round-half-up at
the cent boundary: scale to cents, add half a cent, take the floor. -/
def specRoundHalfUp2 (x : ℚ) : ℚ := ((⌊x * 100 + 1/2⌋ : ℤ) : ℚ) / 100

/-- The spec's wording of the service fee: `S × 0.02` rounded to 2 decimal
places, round-half-up at the cent boundary. -/
def specServiceFee (S : ℚ) : ℚ := specRoundHalfUp2 (S * (2/100))

end Dritchwear

namespace Dritchwear

/-! ## Theorems for the claims -/

/-- Claim C2: for every subtotal `S ≥ 0`, `calculateServiceFee S` equals
`S × 0.02` rounded to 2 decimal places with round-half-up at the cent
boundary. -/
theorem calculateServiceFee_eq_spec (S : ℚ) (h : 0 ≤ S) :
    calculateServiceFee S = specServiceFee S := by
  unfold calculateServiceFee specServiceFee specRoundHalfUp2 jsRound
    SERVICE_FEE_PERCENTAGE
  norm_num

/-- Witness for C2 at `S = 1000`: the fee is 2% of 1000, i.e. 20. -/
theorem calculateServiceFee_eq_spec_witness :
    (0 : ℚ) ≤ 1000 ∧ calculateServiceFee 1000 = specServiceFee 1000 ∧
      calculateServiceFee 1000 = 20 :=
  ⟨by norm_num, calculateServiceFee_eq_spec 1000 (by norm_num), by
    norm_num [calculateServiceFee, jsRound, SERVICE_FEE_PERCENTAGE]⟩

/-- Claim C1: `calculateOrderTotal` returns `serviceFee = calculateServiceFee
subtotal`, `deliveryFee = calculateDeliveryFee location currency`, and
`total = subtotal + serviceFee + deliveryFee` rounded to 2 decimal places;
the total does not depend on `discountAmount`, which is carried through
unchanged; and `calculateOrderTotal 1000 "Lagos" "NGN" 0` has total 4520. -/
theorem calculateOrderTotal_spec (subtotal : ℚ) (location currency : String)
    (discountAmount : ℚ) :
    (calculateOrderTotal subtotal location currency discountAmount).serviceFee
        = calculateServiceFee subtotal ∧
    (calculateOrderTotal subtotal location currency discountAmount).deliveryFee
        = calculateDeliveryFee location currency ∧
    (calculateOrderTotal subtotal location currency discountAmount).total
        = roundTo2 (subtotal + calculateServiceFee subtotal
            + calculateDeliveryFee location currency) ∧
    (calculateOrderTotal subtotal location currency discountAmount).discountAmount
        = discountAmount ∧
    (∀ d : ℚ, (calculateOrderTotal subtotal location currency d).total
        = (calculateOrderTotal subtotal location currency discountAmount).total) ∧
    (calculateOrderTotal 1000 "Lagos" "NGN" 0).total = 4520 := by
  refine ⟨rfl, rfl, rfl, rfl, fun d => rfl, ?_⟩
  have h : calculateDeliveryFee "Lagos" "NGN" = 3500 := by decide
  norm_num [calculateOrderTotal, calculateServiceFee, roundTo2, jsRound,
    SERVICE_FEE_PERCENTAGE, h]

/-- Claim C3: tier selection of `calculateDeliveryFee`: an empty location gives
the local fee of the currency; for NGN, a location containing "lagos" gives
the local fee 3500, else one containing "nigeria" or a known Nigerian state
or city gives the national fee 5000, and any other location gives the
international fee 15000; for non-NGN currencies the fee is the national tier
unless the location contains "international", "worldwide" or "global", in
which case it is the international tier.  Matching is case-insensitive
substring matching on the normalized location. -/
theorem calculateDeliveryFee_tiers (location currency : String) :
    (location = "" →
        calculateDeliveryFee location currency = (feesFor currency).local_) ∧
    (currency = "NGN" → location ≠ "" →
      (includesKw (normalizedLocation location) "lagos" = true →
          calculateDeliveryFee location currency = 3500) ∧
      (includesKw (normalizedLocation location) "lagos" = false →
        ((includesKw (normalizedLocation location) "nigeria" ||
          nigerianStates.any (fun st => includesKw (normalizedLocation location) st) ||
          nigerianCities.any (fun ci => includesKw (normalizedLocation location) ci))
            = true →
            calculateDeliveryFee location currency = 5000) ∧
        ((includesKw (normalizedLocation location) "nigeria" ||
          nigerianStates.any (fun st => includesKw (normalizedLocation location) st) ||
          nigerianCities.any (fun ci => includesKw (normalizedLocation location) ci))
            = false →
            calculateDeliveryFee location currency = 15000))) ∧
    (currency ≠ "NGN" → location ≠ "" →
      ((includesKw (normalizedLocation location) "international" ||
        includesKw (normalizedLocation location) "worldwide" ||
        includesKw (normalizedLocation location) "global") = true →
          calculateDeliveryFee location currency = (feesFor currency).international) ∧
      ((includesKw (normalizedLocation location) "international" ||
        includesKw (normalizedLocation location) "worldwide" ||
        includesKw (normalizedLocation location) "global") = false →
          calculateDeliveryFee location currency = (feesFor currency).national)) := by
  have hNGN : feesFor "NGN" = ⟨3500, 5000, 15000⟩ := by decide
  refine ⟨?_, ?_, ?_⟩
  · intro h
    simp [calculateDeliveryFee, h]
  · intro hc hl
    subst hc
    constructor
    · intro hlag
      simp [calculateDeliveryFee, hl, hlag, hNGN]
    · intro hlag
      constructor
      · intro hng
        simp [calculateDeliveryFee, hl, hlag, hNGN, hng]
      · intro hng
        simp [calculateDeliveryFee, hl, hlag, hNGN, hng]
  · intro hc hl
    constructor
    · intro hint
      simp [calculateDeliveryFee, hl, hc, hint]
    · intro hint
      simp [calculateDeliveryFee, hl, hc, hint]

/-- Witness for C3: "Enugu" with NGN is national tier 5000, "Paris" with NGN
is international tier 15000, the empty location with USD is the USD local
tier, and "worldwide shipping" with USD is the USD international tier. -/
theorem calculateDeliveryFee_tiers_witness :
    calculateDeliveryFee "Enugu" "NGN" = 5000 ∧
    calculateDeliveryFee "Paris" "NGN" = 15000 ∧
    calculateDeliveryFee "" "USD" = 5 ∧
    calculateDeliveryFee "worldwide shipping" "USD" = 25 := by
  refine ⟨?_, ?_, ?_, ?_⟩
  · exact (((calculateDeliveryFee_tiers "Enugu" "NGN").2.1 rfl (by decide)).2
      (by decide)).1 (by decide)
  · exact (((calculateDeliveryFee_tiers "Paris" "NGN").2.1 rfl (by decide)).2
      (by decide)).2 (by decide)
  · have h := (calculateDeliveryFee_tiers "" "USD").1 rfl
    rw [h]; decide
  · have h := ((calculateDeliveryFee_tiers "worldwide shipping" "USD").2.2
      (by decide) (by decide)).1 (by decide)
    rw [h]; decide

/-- Claim C6: `validatePromoCode` returns `none` exactly when the code is
unknown, its active flag is false, the current time is before its start date
or after its end date, or its current-use count has reached its usage cap;
otherwise it returns the promo entry unchanged.  `calculateDiscount` is
`subtotal × promo.discount` with no rounding; discount 0.10 on subtotal 1000
gives 100. -/
theorem validatePromoCode_spec (table : String → Option PromoCode) (now : ℚ)
    (code : String) :
    (validatePromoCodeIn table now code = none ↔
      table code = none ∨
      ∃ p, table code = some p ∧
        (p.isActive = false ∨
         (∃ s, p.startDate = some s ∧ now < s) ∨
         (∃ e, p.endDate = some e ∧ e < now) ∨
         (∃ m c, p.maxUses = some m ∧ p.currentUses = some c ∧ m ≤ c))) ∧
    (∀ p, validatePromoCodeIn table now code = some p → table code = some p) ∧
    validatePromoCode now code = validatePromoCodeIn PROMO_CODES now code ∧
    (∀ (S : ℚ) (p : PromoCode), calculateDiscount S p = S * p.discount) ∧
    (∀ p : PromoCode, p.discount = 10/100 → calculateDiscount 1000 p = 100) := by
  refine ⟨?_, ?_, rfl, fun S p => rfl, ?_⟩
  · rcases htc : table code with _ | p
    · simp [validatePromoCodeIn, htc]
    · rcases hact : p.isActive <;>
        rcases hs : p.startDate with _ | s <;>
        rcases he : p.endDate with _ | e <;>
        rcases hm : p.maxUses with _ | m <;>
        rcases hc : p.currentUses with _ | c <;>
        simp [validatePromoCodeIn, htc, hact, hs, he, hm, hc] <;>
        simp only [lt_iff_not_le] <;> tauto
  · intro p hp
    rcases htc : table code with _ | q
    · simp [validatePromoCodeIn, htc] at hp
    · simp only [validatePromoCodeIn, htc] at hp
      split_ifs at hp <;> simp_all
  · intro p hp
    simp [calculateDiscount, hp]
    norm_num

/-- Witness for C6: against the source's `PROMO_CODES` table at time 0,
"WELCOME10" validates to its entry, an unknown code validates to none, and
the 10% discount on 1000 is 100. -/
theorem validatePromoCode_spec_witness :
    validatePromoCode 0 "NOSUCHCODE" = none ∧
    (∀ p, validatePromoCodeIn PROMO_CODES 0 "WELCOME10" = some p →
        PROMO_CODES "WELCOME10" = some p) ∧
    (∀ p : PromoCode, p.discount = 10/100 → calculateDiscount 1000 p = 100) := by
  refine ⟨?_, ?_, ?_⟩
  · rw [(validatePromoCode_spec PROMO_CODES 0 "NOSUCHCODE").2.2.1]
    rw [(validatePromoCode_spec PROMO_CODES 0 "NOSUCHCODE").1]
    left
    simp [PROMO_CODES]
  · exact (validatePromoCode_spec PROMO_CODES 0 "WELCOME10").2.1
  · exact (validatePromoCode_spec PROMO_CODES 0 "WELCOME10").2.2.2.2

/-- Claim C7: cart expansion over selected sizes, colors and a quantity yields
exactly `|sizes| × |colors|` line items — the Cartesian product — each
carrying the full requested quantity; with zero sizes or zero colors it
fails with a validation error and produces no items. -/
theorem expandSelection_spec (product : Product)
    (sizes colors : List String) (q : ℕ) :
    ((sizes = [] ∨ colors = []) →
      expandSelection product sizes colors q
        = .error "Please select at least one size and one color") ∧
    (sizes ≠ [] → colors ≠ [] →
      ∃ items, expandSelection product sizes colors q = .ok items ∧
        items.length = sizes.length * colors.length ∧
        ∀ it ∈ items, it.quantity = q) := by
  constructor
  · intro h
    rcases h with h | h <;> simp [expandSelection, h]
  · intro h1 h2
    refine ⟨sizes.flatMap fun size => colors.map fun color =>
        { productId := product.id
          productName := product.name
          productImage := product.image_url
          price := product.price
          size := size
          color := color
          quantity := q }, ?_, ?_, ?_⟩
    · simp [expandSelection, h1, h2]
    · clear h1 h2
      induction sizes with
      | nil => simp
      | cons a t ih => simp [ih, Nat.succ_mul, Nat.add_comm]
    · intro it hit
      simp only [List.mem_flatMap, List.mem_map] at hit
      obtain ⟨sz, _, cl, _, hrfl⟩ := hit
      rw [← hrfl]

/-- Witness for C7: sizes ["S","M"] and colors ["Red"] with quantity 2 yield
exactly 2 line items, each of quantity 2; an empty size selection is a
validation error. -/
theorem expandSelection_spec_witness :
    (∃ items,
      expandSelection ⟨"p1", "Tee", "A tee", 1000, "img", "apparel",
          ["S", "M"], ["Red"], 10⟩ ["S", "M"] ["Red"] 2 = .ok items ∧
      items.length = 2 ∧ ∀ it ∈ items, it.quantity = 2) ∧
    expandSelection ⟨"p1", "Tee", "A tee", 1000, "img", "apparel",
        ["S", "M"], ["Red"], 10⟩ [] ["Red"] 2
      = .error "Please select at least one size and one color" := by
  constructor
  · obtain ⟨items, hok, hlen, hq⟩ :=
      (expandSelection_spec ⟨"p1", "Tee", "A tee", 1000, "img", "apparel",
          ["S", "M"], ["Red"], 10⟩ ["S", "M"] ["Red"] 2).2
        (by decide) (by decide)
    exact ⟨items, hok, by simpa using hlen, hq⟩
  · exact (expandSelection_spec _ [] ["Red"] 2).1 (Or.inl rfl)

/-- Claim C4: the wallet settlement path proceeds if and only if the wallet
balance is at least the computed total (both in base currency); a balance
exactly equal to the total succeeds the check.  When the balance is below
the total the attempt stops with an insufficient-funds outcome before any
mutation (the backend state is returned unchanged, so there is no order
record, no ledger record and no wallet change), and the outcome carries the
required amount and the available balance converted to the user's display
currency. -/
theorem handleOrderWallet_spec (rates : String → ℚ) (userCurrency : String)
    (ok : SettlementStep → Bool) (total : ℚ) (s : StoreState) :
    (s.walletBalance < total →
      handleOrderWallet rates userCurrency ok total s
        = (s, .insufficient (convertFromNGN rates total userCurrency)
                (convertFromNGN rates s.walletBalance userCurrency))) ∧
    (total ≤ s.walletBalance →
      handleOrderWallet rates userCurrency ok total s
        = ((processWalletPayment ok total s).store,
           .processed (processWalletPayment ok total s))) ∧
    ((∃ run, (handleOrderWallet rates userCurrency ok total s).2
        = .processed run) ↔ total ≤ s.walletBalance) := by
  refine ⟨?_, ?_, ?_⟩
  · intro h
    simp [handleOrderWallet, h]
  · intro h
    simp [handleOrderWallet, not_lt.mpr h]
  · constructor
    · rintro ⟨run, hrun⟩
      by_contra hlt
      push_neg at hlt
      simp [handleOrderWallet, hlt] at hrun
    · intro h
      exact ⟨processWalletPayment ok total s, by simp [handleOrderWallet, not_lt.mpr h]⟩

/-- Witness for C4: with a wallet balance of 100 and a total of exactly 100
the settlement proceeds (boundary case), and with a balance of 99.99 against
a total of 100 the attempt stops with the two converted amounts and an
unchanged store. -/
theorem handleOrderWallet_spec_witness :
    handleOrderWallet (fun _ => 1) "NGN" (fun _ => true) 100 ⟨0, 100, 0, false⟩
      = ((processWalletPayment (fun _ => true) 100 ⟨0, 100, 0, false⟩).store,
         .processed (processWalletPayment (fun _ => true) 100 ⟨0, 100, 0, false⟩)) ∧
    handleOrderWallet (fun _ => 1) "NGN" (fun _ => true) 100 ⟨0, 9999/100, 0, false⟩
      = (⟨0, 9999/100, 0, false⟩,
         .insufficient (convertFromNGN (fun _ => 1) 100 "NGN")
           (convertFromNGN (fun _ => 1) (9999/100) "NGN")) :=
  ⟨(handleOrderWallet_spec (fun _ => 1) "NGN" (fun _ => true) 100
      ⟨0, 100, 0, false⟩).2.1 (by norm_num),
   (handleOrderWallet_spec (fun _ => 1) "NGN" (fun _ => true) 100
      ⟨0, 9999/100, 0, false⟩).1 (by norm_num)⟩

/-- Claim C5: `processWalletPayment` issues its steps strictly sequentially in
the order stock validation, order creation, wallet debit, ledger insert,
cart clear: the issued trace is a prefix of that order; the run succeeds iff
every step succeeds; a failing step is the last step issued, so a failure
prevents every later step; the wallet is debited only after stock validation
and order creation succeeded, and the cart is cleared only when all prior
steps succeeded; and mutations of steps committed before a failure persist
in the final state (no rollback). -/
theorem processWalletPayment_sequential (ok : SettlementStep → Bool)
    (total : ℚ) (s : StoreState) :
    (processWalletPayment ok total s).issued <+: walletSteps ∧
    ((processWalletPayment ok total s).success = true ↔
        ∀ st ∈ walletSteps, ok st = true) ∧
    (∀ st ∈ (processWalletPayment ok total s).issued, ok st = false →
        (processWalletPayment ok total s).issued.getLast? = some st) ∧
    (.walletDebit ∈ (processWalletPayment ok total s).issued →
        ok .stockValidation = true ∧ ok .orderCreate = true) ∧
    (.cartClear ∈ (processWalletPayment ok total s).issued →
        ok .stockValidation = true ∧ ok .orderCreate = true ∧
        ok .walletDebit = true ∧ ok .ledgerInsert = true) ∧
    ((processWalletPayment ok total s).store.orders
        = if ok .stockValidation ∧ ok .orderCreate
          then s.orders + 1 else s.orders) ∧
    ((processWalletPayment ok total s).store.walletBalance
        = if ok .stockValidation ∧ ok .orderCreate ∧ ok .walletDebit
          then s.walletBalance - total else s.walletBalance) ∧
    ((processWalletPayment ok total s).store.ledger
        = if ok .stockValidation ∧ ok .orderCreate ∧ ok .walletDebit
             ∧ ok .ledgerInsert
          then s.ledger + 1 else s.ledger) ∧
    ((processWalletPayment ok total s).store.cartCleared
        = if ∀ st ∈ walletSteps, ok st = true
          then true else s.cartCleared) := by
  rcases h1 : ok .stockValidation <;>
    rcases h2 : ok .orderCreate <;>
    rcases h3 : ok .walletDebit <;>
    rcases h4 : ok .ledgerInsert <;>
    rcases h5 : ok .cartClear <;>
    simp [processWalletPayment, walletSteps, h1, h2, h3, h4, h5]

/-- Witness for C5: with the wallet-debit call failing, the issued trace
stops exactly at the wallet debit — the ledger insert and cart clear are
never issued — and the failing step is the last one issued. -/
theorem processWalletPayment_sequential_witness :
    (processWalletPayment (fun st => decide (st ≠ .walletDebit)) 50
        ⟨0, 1000, 0, false⟩).issued.getLast? = some .walletDebit :=
  (processWalletPayment_sequential (fun st => decide (st ≠ .walletDebit)) 50
      ⟨0, 1000, 0, false⟩).2.2.1 .walletDebit (by decide) (by decide)

set_option maxHeartbeats 1600000 in
/-- Claim C8: for every subtotal ≥ 0 and every location, currency and discount
amount, the total returned by `calculateOrderTotal` is at least the
subtotal: the service fee is non-negative and the delivery fee is positive,
and the final rounding can lose less than the smallest delivery fee. -/
theorem calculateOrderTotal_total_ge_subtotal (subtotal : ℚ)
    (location currency : String) (discountAmount : ℚ) (h : 0 ≤ subtotal) :
    subtotal ≤ (calculateOrderTotal subtotal location currency discountAmount).total := by
  have hfees : 4 ≤ (feesFor currency).local_ ∧ 4 ≤ (feesFor currency).national ∧
      4 ≤ (feesFor currency).international := by
    unfold feesFor DELIVERY_FEES_BY_CURRENCY
    split_ifs <;> norm_num [Option.getD]
  have hdf : 4 ≤ calculateDeliveryFee location currency := by
    have hcases : calculateDeliveryFee location currency = (feesFor currency).local_ ∨
        calculateDeliveryFee location currency = (feesFor currency).national ∨
        calculateDeliveryFee location currency = (feesFor currency).international := by
      simp only [calculateDeliveryFee]
      split_ifs <;> tauto
    rcases hcases with hc | hc | hc <;> rw [hc] <;> tauto
  have hsf : 0 ≤ calculateServiceFee subtotal := by
    unfold calculateServiceFee jsRound SERVICE_FEE_PERCENTAGE
    have hx : (0 : ℚ) ≤ subtotal * (2 / 100) * 100 + 1 / 2 := by positivity
    have hfl : (0 : ℤ) ≤ ⌊subtotal * (2 / 100) * 100 + 1 / 2⌋ :=
      Int.le_floor.mpr (by exact_mod_cast hx)
    have : (0 : ℚ) ≤ (⌊subtotal * (2 / 100) * 100 + 1 / 2⌋ : ℚ) := by
      exact_mod_cast hfl
    linarith
  set sf := calculateServiceFee subtotal with hsfdef
  set df := calculateDeliveryFee location currency with hdfdef
  have htot : (calculateOrderTotal subtotal location currency discountAmount).total
      = ((⌊(subtotal + sf + df) * 100 + 1 / 2⌋ : ℤ) : ℚ) / 100 := rfl
  have hfl : ((subtotal + sf + df) * 100 + 1 / 2) - 1
      < ((⌊(subtotal + sf + df) * 100 + 1 / 2⌋ : ℤ) : ℚ) :=
    Int.sub_one_lt_floor _
  rw [htot]
  linarith

/-- Witness for C8 at subtotal 1000, location "Lagos", currency NGN. -/
theorem calculateOrderTotal_total_ge_subtotal_witness :
    (0 : ℚ) ≤ 1000 ∧
    (1000 : ℚ) ≤ (calculateOrderTotal 1000 "Lagos" "NGN" 0).total :=
  ⟨by norm_num,
   calculateOrderTotal_total_ge_subtotal 1000 "Lagos" "NGN" 0 (by norm_num)⟩

/-- Claim C9: a cancel outcome from either payment processor is a normal
terminal outcome: the cancel handlers leave the backend state untouched (no
order record and no ledger entry are created for the attempt) and release
the pending/loading UI state, hiding the respective payment modal. -/
theorem cancelHandlers_spec (s : CheckoutUIState) :
    (handlePaystackCancel s).store = s.store ∧
    (handlePaystackCancel s).store.orders = s.store.orders ∧
    (handlePaystackCancel s).store.ledger = s.store.ledger ∧
    (handlePaystackCancel s).loading = false ∧
    (handlePaystackCancel s).showPaystack = false ∧
    (handlePayPalCancel s).store = s.store ∧
    (handlePayPalCancel s).store.orders = s.store.orders ∧
    (handlePayPalCancel s).store.ledger = s.store.ledger ∧
    (handlePayPalCancel s).loading = false ∧
    (handlePayPalCancel s).showPayPal = false :=
  ⟨rfl, rfl, rfl, rfl, rfl, rfl, rfl, rfl, rfl, rfl⟩

/-- Claim C10, counterexample: the currency "XYZ" is outside the delivery-fee
table and the empty location contains no international/worldwide/global
marker, yet `calculateDeliveryFee "" "XYZ"` is 3500 (the NGN local fee), not
5000: the claim's "any location without an international marker yields 5000"
fails at the empty location. -/
theorem calculateDeliveryFee_unknownCurrency_counterexample :
    DELIVERY_FEES_BY_CURRENCY "XYZ" = none ∧
    includesKw (normalizedLocation "") "international" = false ∧
    includesKw (normalizedLocation "") "worldwide" = false ∧
    includesKw (normalizedLocation "") "global" = false ∧
    calculateDeliveryFee "" "XYZ" = 3500 ∧
    ¬ calculateDeliveryFee "" "XYZ" = 5000 := by
  refine ⟨?_, by decide, by decide, by decide, by decide, by decide⟩
  simp [DELIVERY_FEES_BY_CURRENCY]

/-- Claim C10, amended: for a currency outside the delivery-fee table,
`calculateDeliveryFee` is still total and falls back to the NGN fee amounts
under the non-base-currency tier rules: an empty location yields the NGN
local fee 3500, a non-empty location without an
international/worldwide/global marker yields the NGN national fee 5000, and
one with such a marker yields the NGN international fee 15000. -/
theorem calculateDeliveryFee_unknownCurrency (location currency : String)
    (h : DELIVERY_FEES_BY_CURRENCY currency = none) :
    (location = "" → calculateDeliveryFee location currency = 3500) ∧
    (location ≠ "" →
      ((includesKw (normalizedLocation location) "international" ||
        includesKw (normalizedLocation location) "worldwide" ||
        includesKw (normalizedLocation location) "global") = false →
          calculateDeliveryFee location currency = 5000) ∧
      ((includesKw (normalizedLocation location) "international" ||
        includesKw (normalizedLocation location) "worldwide" ||
        includesKw (normalizedLocation location) "global") = true →
          calculateDeliveryFee location currency = 15000)) := by
  have hne : currency ≠ "NGN" := by
    intro hc
    rw [hc] at h
    simp [DELIVERY_FEES_BY_CURRENCY] at h
  have hfees : feesFor currency = ⟨3500, 5000, 15000⟩ := by
    simp [feesFor, h]
  refine ⟨?_, ?_⟩
  · intro hl
    simp [calculateDeliveryFee, hl, hfees]
  · intro hl
    constructor
    · intro hint
      simp [calculateDeliveryFee, hl, hne, hint, hfees]
    · intro hint
      simp [calculateDeliveryFee, hl, hne, hint, hfees]

/-- Witness for C10's amended claim: for the unknown currency "XYZ", the
location "Abuja" (no international marker) yields 5000 and the location
"global" yields 15000; the empty location yields 3500. -/
theorem calculateDeliveryFee_unknownCurrency_witness :
    calculateDeliveryFee "Abuja" "XYZ" = 5000 ∧
    calculateDeliveryFee "global" "XYZ" = 15000 ∧
    calculateDeliveryFee "" "XYZ" = 3500 := by
  refine ⟨?_, ?_, ?_⟩
  · exact ((calculateDeliveryFee_unknownCurrency "Abuja" "XYZ"
      (by simp [DELIVERY_FEES_BY_CURRENCY])).2 (by decide)).1 (by decide)
  · exact ((calculateDeliveryFee_unknownCurrency "global" "XYZ"
      (by simp [DELIVERY_FEES_BY_CURRENCY])).2 (by decide)).2 (by decide)
  · exact (calculateDeliveryFee_unknownCurrency "" "XYZ"
      (by simp [DELIVERY_FEES_BY_CURRENCY])).1 rfl

end Dritchwear
